import Mathlib

/-!
Verification of the cognitive-loop core of the `luna` agent runtime.

This development shallowly embeds the two core source files
`packages/core/src/bootstrap.ts` (response orchestrator) and
`packages/core/src/evaluators/reflection.ts` (reflection consolidator)
and proves or refutes the specified properties about them.

Conventions:
* JavaScript strings are Lean `String`s; `String.prototype.includes` is
  `strIncludes`, `toLowerCase` is `strToLower` (ASCII, which covers every
  identifier and keyword the code compares).
* `undefined`/`null` results are `Option.none`.
* The stateful orchestrator is embedded as a deterministic step machine
  driven by an explicit interleaving schedule; each step corresponds to the
  code run between two `await` suspension points.
-/

namespace Luna

/-! ## String primitives (JavaScript semantics) -/

/-- Does the character list `n` occur at the head of `h`?  Mirrors the
prefix test used to implement `String.prototype.includes`. -/
def charStarts : List Char → List Char → Bool
  | [], _ => true
  | _ :: _, [] => false
  | a :: as, b :: bs => a == b && charStarts as bs

/-- Does `n` occur as a contiguous run anywhere in `h`? -/
def includesChars (n : List Char) : List Char → Bool
  | [] => charStarts n []
  | c :: t => charStarts n (c :: t) || includesChars n t

/-- JavaScript `hay.includes(needle)`. -/
def strIncludes (hay needle : String) : Bool :=
  includesChars needle.toList hay.toList

/-- JavaScript `s.toLowerCase()` (ASCII range, which is all the code uses). -/
def strToLower (s : String) : String :=
  ⟨s.toList.map Char.toLower⟩

/-! ## `checkShouldRespond` (bootstrap.ts lines 103–183)

The function consults the database adapter for the agent's participant
state and, in its final branch only, the small language model.  Both are
external collaborators; their answers enter the embedding as fields of the
context record. -/

/-- Inputs of one `checkShouldRespond` call, with collaborator answers
(participant state, small-model output) supplied as oracle fields. -/
structure ShouldRespondCtx where
  userId : String
  agentId : String
  /-- `getParticipantUserState` result: `some "MUTED"`, `some "FOLLOWED"`,
  or anything else (treated like `null`). -/
  agentUserState : Option String
  text : String
  agentName : String
  /-- Text returned by `runtime.useModel(TEXT_SMALL, …)` when the final
  branch is reached. -/
  modelText : String

/-- Shallow embedding of `checkShouldRespond`.  The early-outs appear in
source order, each returning immediately. -/
def checkShouldRespond (c : ShouldRespondCtx) : Bool :=
  if c.userId == c.agentId then false
  else if c.agentUserState == some "MUTED"
      && !(strIncludes (strToLower c.text) (strToLower c.agentName)) then false
  else if c.agentUserState == some "FOLLOWED" then true
  else if strIncludes (strToLower c.text) (strToLower c.agentName) then true
  else if strIncludes c.modelText "RESPOND" then true
  else if strIncludes c.modelText "IGNORE" then false
  else if strIncludes c.modelText "STOP" then false
  else false

/-! ## Entity resolver (reflection.ts lines 119–152) -/

/-- One roster entity: id plus known display names. -/
structure Entity where
  id : String
  names : List String
deriving Repr, DecidableEq

/-- Hexadecimal digit, either case (the character class of the UUID regex). -/
def isHexDigit (c : Char) : Bool :=
  c.isDigit || (decide ('a' ≤ c) && decide (c ≤ 'f'))
    || (decide ('A' ≤ c) && decide (c ≤ 'F'))

/-- Split a character list at every `'-'` (the separator structure the UUID
regex checks). -/
def splitDash : List Char → List (List Char)
  | [] => [[]]
  | '-' :: t => [] :: splitDash t
  | c :: t =>
    match splitDash t with
    | g :: gs => (c :: g) :: gs
    | [] => [[c]]

/-- The test `/^[0-9a-f]{8}-[0-9a-f]{4}-[0-9a-f]{4}-[0-9a-f]{4}-[0-9a-f]{12}$/i`:
five dash-separated groups of hex digits with lengths 8, 4, 4, 4, 12. -/
def isUUIDFormat (s : String) : Bool :=
  let parts := splitDash s.toList
  parts.length == 5 &&
    (parts.zip [8, 4, 4, 4, 12]).all fun p =>
      p.1.length == p.2 && p.1.all isHexDigit

/-- Shallow embedding of `resolveEntity`; `none` models the thrown
`Could not resolve entityId` error. -/
def resolveEntity (entityId : String) (entities : List Entity) : Option String :=
  if isUUIDFormat entityId then
    some entityId
  else
    match entities.find? (fun a => a.id == entityId) with
    | some e => some e.id
    | none =>
      match entities.find? (fun a => strIncludes a.id entityId) with
      | some e => some e.id
      | none =>
        match entities.find? (fun a =>
            a.names.any fun n =>
              strIncludes (strToLower n) (strToLower entityId)) with
        | some e => some e.id
        | none => none

/-! ## Reflection `validate` (reflection.ts lines 386–410) -/

/-- The reflection interval, `Math.ceil(conversationLength / 4)` on a
non-negative integer. -/
def ceilDiv4 (n : Nat) : Nat :=
  (n + 3) / 4

/-- Shallow embedding of `reflectionEvaluator.validate`.  `lastProcessed` is
the cached checkpoint id (`none` = cache miss; a present empty string is
falsy in the `if (lastMessageId)` guard), `messages` the ids of the loaded
window in adapter order.  `splice(0, i + 1)` drops the first occurrence of
the checkpoint and everything placed before it. -/
def reflectionValidate (conversationLength : Nat) (lastProcessed : Option String)
    (messages : List String) : Bool :=
  let remaining :=
    match lastProcessed with
    | none => messages
    | some mid =>
      if mid == "" then messages
      else
        match messages.findIdx? (fun m => m == mid) with
        | some i => messages.drop (i + 1)
        | none => messages
  decide (remaining.length > ceilDiv4 conversationLength)

/-! ## Relationship merge (reflection.ts handler, lines 323–366) -/

/-- A relationship extracted by the model (zod `relationshipSchema`):
`metadata` is optional and, when present, carries an `interactions` count. -/
structure ExtractedRel where
  sourceEntityId : String
  targetEntityId : String
  tags : List String
  metadata : Option Nat
deriving Repr, DecidableEq

/-- A stored relationship row.  `rid` models the database row identity that
`updateRelationship` uses to overwrite in place; `interactions` is the
`metadata.interactions` field, absent when a row was written without one. -/
structure StoredRel where
  rid : Nat
  sourceEntityId : String
  targetEntityId : String
  tags : List String
  interactions : Option Nat
deriving Repr, DecidableEq

/-- `Array.from(new Set([...a, ...b]))`: concatenation keeping the first
occurrence of each element, in insertion order. -/
def setUnion (a b : List String) : List String :=
  (a ++ b).foldl (fun acc t => if acc.contains t then acc else acc ++ [t]) []

/-- `updateRelationship`: overwrite the row carrying the same database id. -/
def updateRow (store : List StoredRel) (row : StoredRel) : List StoredRel :=
  store.map fun r => if r.rid == row.rid then row else r

/-- One iteration of the `for (const relationship of reflection.relationships)`
loop.  `snapshot` is the `existingRelationships` list loaded once before the
loop (it is not refreshed as the loop writes); `acc` is the relationship
store paired with the next fresh row id.  Resolution failure on either side
skips the relationship (the `catch`/`continue`). -/
def mergeRel (entities : List Entity) (snapshot : List StoredRel)
    (acc : List StoredRel × Nat) (rel : ExtractedRel) : List StoredRel × Nat :=
  match resolveEntity rel.sourceEntityId entities,
        resolveEntity rel.targetEntityId entities with
  | some sourceId, some targetId =>
    match snapshot.find? (fun r =>
        r.sourceEntityId == sourceId && r.targetEntityId == targetId) with
    | some existing =>
      let updated : StoredRel :=
        { existing with
          tags := setUnion existing.tags rel.tags
          interactions := some (existing.interactions.getD 0 + 1) }
      (updateRow acc.1 updated, acc.2)
    | none =>
      (acc.1 ++ [{ rid := acc.2
                   sourceEntityId := sourceId
                   targetEntityId := targetId
                   tags := rel.tags
                   interactions := some (rel.metadata.getD 1) }], acc.2 + 1)
  | _, _ => acc

/-- The relationship phase of one reflection pass over a fixed snapshot. -/
def mergePass (entities : List Entity) (snapshot : List StoredRel)
    (store : List StoredRel) (nextId : Nat) (rels : List ExtractedRel) :
    List StoredRel × Nat :=
  rels.foldl (mergeRel entities snapshot) (store, nextId)

/-- One reflection pass as observed through the relationship store: the
snapshot is the store as loaded at pass start (`getRelationships` returns
the stored edges for the triggering entity before the loop runs). -/
def reflectPass (entities : List Entity) (st : List StoredRel × Nat)
    (rels : List ExtractedRel) : List StoredRel × Nat :=
  mergePass entities st.1 st.1 st.2 rels

/-! ## JSON values and `JSON.parse`

`generateObject` hands the sliced model output to the platform's
`JSON.parse`.  The parser below models it: strict JSON grammar, rejecting
trailing input.  Number lexemes are kept verbatim — the code under
verification never computes with parsed numbers. -/

/-- A parsed JSON value. -/
inductive Json where
  | null
  | bool (b : Bool)
  | num (lexeme : String)
  | str (s : String)
  | arr (elems : List Json)
  | obj (fields : List (String × Json))
deriving Inhabited

/-- JSON insignificant whitespace. -/
def isJsonWs (c : Char) : Bool :=
  c == ' ' || c == '\t' || c == '\n' || c == '\r'

/-- Drop leading JSON whitespace. -/
def skipWs (cs : List Char) : List Char :=
  cs.dropWhile isJsonWs

/-- Value of one hex digit. -/
def hexVal (c : Char) : Option Nat :=
  if c.isDigit then some (c.toNat - '0'.toNat)
  else if decide ('a' ≤ c) && decide (c ≤ 'f') then some (c.toNat - 'a'.toNat + 10)
  else if decide ('A' ≤ c) && decide (c ≤ 'F') then some (c.toNat - 'A'.toNat + 10)
  else none

/-- Translation of a single-character escape sequence. -/
def escChar : Char → Option Char
  | '"' => some '"'
  | '\\' => some '\\'
  | '/' => some '/'
  | 'b' => some (Char.ofNat 8)
  | 'f' => some (Char.ofNat 12)
  | 'n' => some '\n'
  | 'r' => some '\r'
  | 't' => some '\t'
  | _ => none

/-- Parse the body of a JSON string after the opening quote, up to and
including the closing quote.  Returns the decoded characters and the rest. -/
def parseStrBody : List Char → Option (List Char × List Char)
  | [] => none
  | '"' :: rest => some ([], rest)
  | '\\' :: 'u' :: h1 :: h2 :: h3 :: h4 :: rest => do
    let a ← hexVal h1
    let b ← hexVal h2
    let c ← hexVal h3
    let d ← hexVal h4
    let (cs, r) ← parseStrBody rest
    pure (Char.ofNat (((a * 16 + b) * 16 + c) * 16 + d) :: cs, r)
  | '\\' :: e :: rest => do
    let c ← escChar e
    let (cs, r) ← parseStrBody rest
    pure (c :: cs, r)
  | c :: rest => do
    let (cs, r) ← parseStrBody rest
    pure (c :: cs, r)

/-- One or more decimal digits. -/
def digits1 (cs : List Char) : Option (List Char × List Char) :=
  let ds := cs.takeWhile Char.isDigit
  if ds.isEmpty then none else some (ds, cs.drop ds.length)

/-- Parse a JSON number literal, returning its lexeme: optional minus, an
integer part with no leading zero, optional fraction, optional exponent. -/
def parseNum (cs : List Char) : Option (List Char × List Char) := do
  let (sign, cs1) := match cs with
    | '-' :: r => (['-'], r)
    | _ => (([] : List Char), cs)
  let (ip, cs2) ← match cs1 with
    | '0' :: r => some (['0'], r)
    | _ => digits1 cs1
  let (fp, cs3) := match cs2 with
    | '.' :: r =>
      match digits1 r with
      | some (ds, r2) => ('.' :: ds, r2)
      | none => (([] : List Char), cs2)
    | _ => (([] : List Char), cs2)
  -- a bare '.' with no digits is a syntax error
  if cs2 ≠ cs3 ∨ ¬ (cs2.head? = some '.') then
    let (ep, cs4) := match cs3 with
      | e :: r =>
        if e == 'e' || e == 'E' then
          let (es, r1) := match r with
            | '+' :: r2 => (['+'], r2)
            | '-' :: r2 => (['-'], r2)
            | _ => (([] : List Char), r)
          match digits1 r1 with
          | some (ds, r2) => (e :: (es ++ ds), r2)
          | none => (([] : List Char), cs3)
        else (([] : List Char), cs3)
      | _ => (([] : List Char), cs3)
    some (sign ++ ip ++ fp ++ ep, cs4)
  else none

mutual

/-- Parse one JSON value; the fuel bounds recursion depth and list length. -/
def parseValue : Nat → List Char → Option (Json × List Char)
  | 0, _ => none
  | fuel + 1, cs =>
    match skipWs cs with
    | 'n' :: 'u' :: 'l' :: 'l' :: r => some (.null, r)
    | 't' :: 'r' :: 'u' :: 'e' :: r => some (.bool true, r)
    | 'f' :: 'a' :: 'l' :: 's' :: 'e' :: r => some (.bool false, r)
    | '"' :: r => do
      let (cs1, r1) ← parseStrBody r
      pure (.str ⟨cs1⟩, r1)
    | '[' :: r =>
      match skipWs r with
      | ']' :: r2 => some (.arr [], r2)
      | _ => do
        let (vs, r2) ← parseElems fuel r
        pure (.arr vs, r2)
    | '{' :: r =>
      match skipWs r with
      | '}' :: r2 => some (.obj [], r2)
      | _ => do
        let (fs, r2) ← parseFields fuel r
        pure (.obj fs, r2)
    | c :: r =>
      if c == '-' || c.isDigit then do
        let (lex, r1) ← parseNum (c :: r)
        pure (.num ⟨lex⟩, r1)
      else none
    | [] => none

/-- Parse the non-empty element list of a JSON array, including `]`. -/
def parseElems : Nat → List Char → Option (List Json × List Char)
  | 0, _ => none
  | fuel + 1, cs => do
    let (v, r) ← parseValue fuel cs
    match skipWs r with
    | ',' :: r2 => do
      let (vs, r3) ← parseElems fuel r2
      pure (v :: vs, r3)
    | ']' :: r2 => pure ([v], r2)
    | _ => none

/-- Parse the non-empty member list of a JSON object, including `}`. -/
def parseFields : Nat → List Char → Option (List (String × Json) × List Char)
  | 0, _ => none
  | fuel + 1, cs =>
    match skipWs cs with
    | '"' :: r => do
      let (k, r1) ← parseStrBody r
      match skipWs r1 with
      | ':' :: r2 => do
        let (v, r3) ← parseValue fuel r2
        match skipWs r3 with
        | ',' :: r4 => do
          let (fs, r5) ← parseFields fuel r4
          pure ((⟨k⟩, v) :: fs, r5)
        | '}' :: r4 => pure ([(⟨k⟩, v)], r4)
        | _ => none
      | _ => none
    | _ => none

end

/-- Model of `JSON.parse`: parse one value, allow trailing whitespace only.
`none` models the thrown `SyntaxError`. -/
def jsonParse (s : String) : Option Json :=
  match parseValue (2 * s.length + 2) s.toList with
  | some (v, rest) => if (skipWs rest).isEmpty then some v else none
  | none => none

/-! ## `generateObject` (reflection.ts lines 154–244)

The source function first branches on `output === "enum"`; the two branches
share nothing, so they are embedded as two functions.  The model response
enters as an argument (the `useModel` collaborator is external). -/

/-- JavaScript `cs.indexOf(c)`, with `none` for `-1`. -/
def jsIndexOf (cs : List Char) (c : Char) : Option Nat :=
  cs.findIdx? (· == c)

/-- JavaScript `cs.lastIndexOf(c)`, with `none` for `-1`. -/
def jsLastIndexOf (cs : List Char) (c : Char) : Option Nat :=
  match cs.reverse.findIdx? (· == c) with
  | some i => some (cs.length - 1 - i)
  | none => none

/-- The bracket-location step: `response.slice(firstBracket, lastBracket + 1)`
when both brackets are found in the right order, otherwise the response
unchanged. -/
def sliceToBrackets (output : String) (response : String) : String :=
  let firstChar := if output == "array" then '[' else '{'
  let lastChar := if output == "array" then ']' else '}'
  let cs := response.toList
  match jsIndexOf cs firstChar, jsLastIndexOf cs lastChar with
  | some i, some j => if i < j then ⟨(cs.drop i).take (j + 1 - i)⟩ else response
  | _, _ => response

/-- Enum branch (`output === "enum"`): trim, accept an exact enum value,
else the first enum value contained case-insensitively, else `null`. -/
def generateObjectEnum (enumValues : List String) (modelText : String) :
    Option String :=
  let cleaned := modelText.trim
  if enumValues.contains cleaned then some cleaned
  else
    match enumValues.find? (fun v =>
        strIncludes (strToLower cleaned) (strToLower v)) with
    | some v => some v
    | none => none

/-- Object/array branch of `generateObject`.  `schema` is the optional zod
schema as a validation function — a `none` result models `schema.parse`
throwing, which the surrounding `try` turns into `null`.  The `Option`
result models `value | null`: every failure path inside the function is
caught, so no exception escapes. -/
def generateObject (output : String) (schema : Option (Json → Option Json))
    (modelText : String) : Option Json :=
  let jsonString := sliceToBrackets output modelText
  if jsonString.length == 0 then none
  else
    match jsonParse jsonString with
    | none => none
    | some j =>
      match schema with
      | none => some j
      | some validate => validate j

/-! ## Response orchestrator (bootstrap.ts `messageReceivedHandler`, lines 185–261)

`latestResponseIds` is a nested map agentId → roomId → responseId.  All the
claims concern one `(agent, room)` key, so the machine carries that key's
entry as `table : Option Nat`; handler `i`'s minted `v4()` id is the number
`i` (ids are distinct, which is all the code relies on).  Handlers run
concurrently on the JavaScript event loop: control can change hands exactly
at `await` points.  Each machine step below is a maximal synchronous run of
one handler between two suspension points that touch the shared map, so an
arbitrary schedule of steps covers exactly the real interleavings:

* `start → persisting`: lines 192–207, mint and register the response id,
  begin persisting the inbound message (`await Promise.all` suspends);
* `persisting → deciding/failed`: the persistence promise settles, a
  rejection propagates out of the handler;
* `deciding → generating/evaluating`: `checkShouldRespond` returns (its
  internal awaits touch no shared state);
* `generating → checking`: the TEXT_LARGE model call returns;
* `checking → dispatching/staleDiscarded`: line 227 compares
  `agentResponses.get(roomId)` with the handler's own id; on mismatch the
  handler returns at line 232 before `runtime.evaluate`;
* `dispatching → evaluating`: the handler resumes from the line-249
  `composeState` await, unconditionally deletes the map entry
  (lines 252–255) and calls `processActions` — the dispatch;
* `evaluating → finished`: `runtime.evaluate` (line 260) runs.
-/

/-- Per-handler collaborator answers: whether persisting the inbound
message succeeds and what `checkShouldRespond` returns if it runs. -/
structure HandlerEnv where
  persistOk : Bool
  shouldRespond : Bool

/-- Progress of one `messageReceivedHandler` invocation. -/
inductive Phase where
  | start
  | persisting
  | deciding
  | generating
  | checking
  | dispatching
  | evaluating
  | finished
  | staleDiscarded
  | failed
deriving Repr, DecidableEq

/-- Pointwise function update, used for the per-handler record fields. -/
def fupd {α : Type} (f : Nat → α) (i : Nat) (a : α) : Nat → α :=
  fun j => if j == i then a else f j

/-- Shared and per-handler state of the orchestrator machine. -/
structure OrchState where
  /-- the `(agent, room)` entry of `latestResponseIds` -/
  table : Option Nat
  phase : Nat → Phase
  /-- whether `checkShouldRespond` ran for handler `i` -/
  decided : Nat → Bool
  /-- whether handler `i` reached `processActions` (its response was dispatched) -/
  dispatched : Nat → Bool
  /-- how many times `runtime.evaluate` ran for handler `i` -/
  evalCount : Nat → Nat

/-- One machine step: handler `i` runs to its next suspension point. -/
def orchStep (env : Nat → HandlerEnv) (s : OrchState) (i : Nat) : OrchState :=
  match s.phase i with
  | .start =>
    { s with table := some i, phase := fupd s.phase i .persisting }
  | .persisting =>
    if (env i).persistOk then { s with phase := fupd s.phase i .deciding }
    else { s with phase := fupd s.phase i .failed }
  | .deciding =>
    { s with decided := fupd s.decided i true
             phase := fupd s.phase i
               (if (env i).shouldRespond then .generating else .evaluating) }
  | .generating =>
    { s with phase := fupd s.phase i .checking }
  | .checking =>
    if s.table == some i then { s with phase := fupd s.phase i .dispatching }
    else { s with phase := fupd s.phase i .staleDiscarded }
  | .dispatching =>
    { s with table := none
             dispatched := fupd s.dispatched i true
             phase := fupd s.phase i .evaluating }
  | .evaluating =>
    { s with evalCount := fupd s.evalCount i (s.evalCount i + 1)
             phase := fupd s.phase i .finished }
  | .finished => s
  | .staleDiscarded => s
  | .failed => s

/-- Initial state: no live token, every handler about to start. -/
def orchInit : OrchState :=
  { table := none
    phase := fun _ => .start
    decided := fun _ => false
    dispatched := fun _ => false
    evalCount := fun _ => 0 }

/-- Run the machine under an explicit interleaving schedule. -/
def orchRun (env : Nat → HandlerEnv) (sched : List Nat) : OrchState :=
  sched.foldl (orchStep env) orchInit

/-- Run the machine from an arbitrary state. -/
def orchRunFrom (env : Nat → HandlerEnv) (s : OrchState) (sched : List Nat) :
    OrchState :=
  sched.foldl (orchStep env) s

theorem orchRun_append (env : Nat → HandlerEnv) (s1 s2 : List Nat) :
    orchRun env (s1 ++ s2) = orchRunFrom env (orchRun env s1) s2 := by
  simp [orchRun, orchRunFrom, List.foldl_append]

/-! Step equations: the effect of one step, by current phase. -/

theorem orchStep_eq_start {env s i} (h : s.phase i = .start) :
    orchStep env s i = { s with table := some i, phase := fupd s.phase i .persisting } := by
  unfold orchStep; rw [h]

theorem orchStep_eq_persisting {env s i} (h : s.phase i = .persisting) :
    orchStep env s i =
      { s with phase := fupd s.phase i (if (env i).persistOk then .deciding else .failed) } := by
  unfold orchStep; rw [h]; cases hb : (env i).persistOk <;> simp [hb]

theorem orchStep_eq_deciding {env s i} (h : s.phase i = .deciding) :
    orchStep env s i =
      { s with decided := fupd s.decided i true
               phase := fupd s.phase i (if (env i).shouldRespond then .generating else .evaluating) } := by
  unfold orchStep; rw [h]

theorem orchStep_eq_generating {env s i} (h : s.phase i = .generating) :
    orchStep env s i = { s with phase := fupd s.phase i .checking } := by
  unfold orchStep; rw [h]

theorem orchStep_eq_checking {env s i} (h : s.phase i = .checking) :
    orchStep env s i =
      { s with phase := fupd s.phase i (if s.table == some i then .dispatching else .staleDiscarded) } := by
  unfold orchStep; rw [h]; cases hb : s.table == some i <;> simp [hb]

theorem orchStep_eq_dispatching {env s i} (h : s.phase i = .dispatching) :
    orchStep env s i =
      { s with table := none
               dispatched := fupd s.dispatched i true
               phase := fupd s.phase i .evaluating } := by
  unfold orchStep; rw [h]

theorem orchStep_eq_evaluating {env s i} (h : s.phase i = .evaluating) :
    orchStep env s i =
      { s with evalCount := fupd s.evalCount i (s.evalCount i + 1)
               phase := fupd s.phase i .finished } := by
  unfold orchStep; rw [h]

theorem orchStep_eq_finished {env s i} (h : s.phase i = .finished) :
    orchStep env s i = s := by
  unfold orchStep; rw [h]

theorem orchStep_eq_stale {env s i} (h : s.phase i = .staleDiscarded) :
    orchStep env s i = s := by
  unfold orchStep; rw [h]

theorem orchStep_eq_failed {env s i} (h : s.phase i = .failed) :
    orchStep env s i = s := by
  unfold orchStep; rw [h]

/-- A step by handler `j` leaves every other handler's record untouched. -/
theorem orchStep_ne (env : Nat → HandlerEnv) (s : OrchState) {i j : Nat}
    (h : i ≠ j) :
    (orchStep env s j).phase i = s.phase i
    ∧ (orchStep env s j).decided i = s.decided i
    ∧ (orchStep env s j).dispatched i = s.dispatched i
    ∧ (orchStep env s j).evalCount i = s.evalCount i := by
  cases hp : s.phase j <;>
    (first
      | rw [orchStep_eq_start hp]
      | rw [orchStep_eq_persisting hp]
      | rw [orchStep_eq_deciding hp]
      | rw [orchStep_eq_generating hp]
      | rw [orchStep_eq_checking hp]
      | rw [orchStep_eq_dispatching hp]
      | rw [orchStep_eq_evaluating hp]
      | rw [orchStep_eq_finished hp]
      | rw [orchStep_eq_stale hp]
      | rw [orchStep_eq_failed hp]) <;>
    simp [fupd, h]

/-- Invariants preserved by every step hold along every schedule. -/
theorem orchRunFrom_inv {P : OrchState → Prop} (env : Nat → HandlerEnv)
    (hstep : ∀ s j, P s → P (orchStep env s j)) :
    ∀ sched s, P s → P (orchRunFrom env s sched) := by
  intro sched
  induction sched with
  | nil => intro s h; exact h
  | cons j t ih => intro s h; exact ih _ (hstep s j h)

/-! ## Machine invariants -/

/-- A dispatched handler has passed its dispatch step. -/
def DispInv (s : OrchState) : Prop :=
  ∀ i, s.dispatched i = true → s.phase i = .evaluating ∨ s.phase i = .finished

theorem DispInv_step (env : Nat → HandlerEnv) :
    ∀ s j, DispInv s → DispInv (orchStep env s j) := by
  intro s j h i hd
  by_cases hij : i = j
  · subst hij
    cases hp : s.phase i
    · rw [orchStep_eq_start hp] at hd ⊢
      simp only [fupd, beq_self_eq_true, if_true] at hd ⊢
      exact absurd (h i hd) (by simp [hp])
    · rw [orchStep_eq_persisting hp] at hd ⊢
      simp only [fupd, beq_self_eq_true, if_true] at hd ⊢
      exact absurd (h i hd) (by simp [hp])
    · rw [orchStep_eq_deciding hp] at hd ⊢
      simp only [fupd, beq_self_eq_true, if_true] at hd ⊢
      exact absurd (h i hd) (by simp [hp])
    · rw [orchStep_eq_generating hp] at hd ⊢
      simp only [fupd, beq_self_eq_true, if_true] at hd ⊢
      exact absurd (h i hd) (by simp [hp])
    · rw [orchStep_eq_checking hp] at hd ⊢
      simp only [fupd, beq_self_eq_true, if_true] at hd ⊢
      exact absurd (h i hd) (by simp [hp])
    · rw [orchStep_eq_dispatching hp]
      simp [fupd]
    · rw [orchStep_eq_evaluating hp]
      simp [fupd]
    · rw [orchStep_eq_finished hp] at hd ⊢
      exact h i hd
    · rw [orchStep_eq_stale hp] at hd ⊢
      exact h i hd
    · rw [orchStep_eq_failed hp] at hd ⊢
      exact h i hd
  · obtain ⟨hph, _, hdi, _⟩ := orchStep_ne env s hij
    rw [hdi] at hd
    rw [hph]
    exact h i hd

theorem DispInv_run (env : Nat → HandlerEnv) (sched : List Nat) :
    DispInv (orchRun env sched) := by
  have h0 : DispInv orchInit := by intro i hd; simp [orchInit] at hd
  exact orchRunFrom_inv env (DispInv_step env) sched orchInit h0

/-- `runtime.evaluate` has run exactly when the handler has finished. -/
def EvalInv (s : OrchState) : Prop :=
  ∀ i, s.evalCount i = if s.phase i = .finished then 1 else 0

theorem EvalInv_step (env : Nat → HandlerEnv) :
    ∀ s j, EvalInv s → EvalInv (orchStep env s j) := by
  intro s j h i
  by_cases hij : i = j
  · subst hij
    cases hp : s.phase i
    · rw [orchStep_eq_start hp]; simp [fupd, h i, hp]
    · rw [orchStep_eq_persisting hp]
      cases hc : (env i).persistOk <;> simp [fupd, h i, hp, hc]
    · rw [orchStep_eq_deciding hp]
      cases hc : (env i).shouldRespond <;> simp [fupd, h i, hp, hc]
    · rw [orchStep_eq_generating hp]; simp [fupd, h i, hp]
    · rw [orchStep_eq_checking hp]
      cases hc : s.table == some i <;> simp [fupd, h i, hp, hc]
    · rw [orchStep_eq_dispatching hp]; simp [fupd, h i, hp]
    · rw [orchStep_eq_evaluating hp]; simp [fupd, h i, hp]
    · rw [orchStep_eq_finished hp]; exact h i
    · rw [orchStep_eq_stale hp]; exact h i
    · rw [orchStep_eq_failed hp]; exact h i
  · obtain ⟨hph, _, _, hev⟩ := orchStep_ne env s hij
    rw [hev, hph]
    exact h i

theorem EvalInv_run (env : Nat → HandlerEnv) (sched : List Nat) :
    EvalInv (orchRun env sched) := by
  have h0 : EvalInv orchInit := by intro i; simp [orchInit]
  exact orchRunFrom_inv env (EvalInv_step env) sched orchInit h0

/-- Before the persistence step settles successfully (and forever after a
persistence failure), nothing downstream has happened for the handler. -/
def FailInv (s : OrchState) : Prop :=
  ∀ i, (s.phase i = .start ∨ s.phase i = .persisting ∨ s.phase i = .failed) →
    s.decided i = false ∧ s.dispatched i = false ∧ s.evalCount i = 0

theorem FailInv_step (env : Nat → HandlerEnv) :
    ∀ s j, FailInv s → FailInv (orchStep env s j) := by
  intro s j h i hp'
  by_cases hij : i = j
  · subst hij
    cases hp : s.phase i
    · rw [orchStep_eq_start hp] at hp' ⊢
      exact h i (Or.inl hp)
    · rw [orchStep_eq_persisting hp] at hp' ⊢
      cases hc : (env i).persistOk
      · exact h i (Or.inr (Or.inl hp))
      · simp [fupd, hc] at hp'
    · rw [orchStep_eq_deciding hp] at hp' ⊢
      cases hc : (env i).shouldRespond <;> simp [fupd, hc] at hp'
    · rw [orchStep_eq_generating hp] at hp' ⊢
      simp [fupd] at hp'
    · rw [orchStep_eq_checking hp] at hp' ⊢
      cases hc : s.table == some i <;> simp [fupd, hc] at hp'
    · rw [orchStep_eq_dispatching hp] at hp' ⊢
      simp [fupd] at hp'
    · rw [orchStep_eq_evaluating hp] at hp' ⊢
      simp [fupd] at hp'
    · rw [orchStep_eq_finished hp] at hp' ⊢
      simp [hp] at hp'
    · rw [orchStep_eq_stale hp] at hp' ⊢
      simp [hp] at hp'
    · rw [orchStep_eq_failed hp] at hp' ⊢
      exact h i hp'
  · obtain ⟨hph, hde, hdi, hev⟩ := orchStep_ne env s hij
    rw [hph] at hp'
    rw [hde, hdi, hev]
    exact h i hp'

theorem FailInv_run (env : Nat → HandlerEnv) (sched : List Nat) :
    FailInv (orchRun env sched) := by
  have h0 : FailInv orchInit := by intro i _; simp [orchInit]
  exact orchRunFrom_inv env (FailInv_step env) sched orchInit h0

/-- Once a handler has discarded its response as stale, it stays discarded
and undispatched under any further interleaving. -/
theorem stale_preserved (env : Nat → HandlerEnv) :
    ∀ sched s i, s.phase i = .staleDiscarded → s.dispatched i = false →
      (orchRunFrom env s sched).phase i = .staleDiscarded
      ∧ (orchRunFrom env s sched).dispatched i = false := by
  intro sched
  induction sched with
  | nil => intro s i hp hd; exact ⟨hp, hd⟩
  | cons j t ih =>
    intro s i hp hd
    have hrun : orchRunFrom env s (j :: t) = orchRunFrom env (orchStep env s j) t := by
      simp [orchRunFrom]
    rw [hrun]
    by_cases hij : i = j
    · subst hij
      rw [orchStep_eq_stale hp]
      exact ih s i hp hd
    · obtain ⟨hph, _, hdi, _⟩ := orchStep_ne env s hij
      exact ih (orchStep env s j) i (by rw [hph]; exact hp) (by rw [hdi]; exact hd)

/-! ## Concrete environments for witnesses and counterexamples -/

/-- Every persistence succeeds, every should-respond answer is `true`. -/
def envAll : Nat → HandlerEnv := fun _ => ⟨true, true⟩

/-- Every persistence fails. -/
def envFailing : Nat → HandlerEnv := fun _ => ⟨false, true⟩

/-! ## Claim C1 -/

/-- C1, amended.  The half of the claim that holds: a handler whose minted
token differs from the current live token at the post-generation check
(line 227) ends in the stale-discard return and its response is never
dispatched, under any continued interleaving.  (The other half of the
claim — that at most the last-minted token's response is ever dispatched —
is refuted by `c1_counterexample`.) -/
theorem c1_stale_token_discard (env : Nat → HandlerEnv)
    (sched1 sched2 : List Nat) (i : Nat)
    (hph : (orchRun env sched1).phase i = .checking)
    (htk : (orchRun env sched1).table ≠ some i) :
    (orchRun env (sched1 ++ i :: sched2)).phase i = .staleDiscarded
    ∧ (orchRun env (sched1 ++ i :: sched2)).dispatched i = false := by
  set s := orchRun env sched1 with hs
  have hd : s.dispatched i = false := by
    cases hb : s.dispatched i
    · rfl
    · rcases DispInv_run env sched1 i hb with h | h <;> rw [hph] at h <;> simp at h
  have hbeq : (s.table == some i) = false := by
    cases hb : s.table == some i
    · rfl
    · exact absurd (by simpa using hb) htk
  have hstep : orchStep env s i = { s with phase := fupd s.phase i .staleDiscarded } := by
    rw [orchStep_eq_checking hph, hbeq]
    simp
  rw [orchRun_append]
  have hrun : orchRunFrom env s (i :: sched2)
      = orchRunFrom env (orchStep env s i) sched2 := by
    simp [orchRunFrom]
  rw [hrun, hstep]
  exact stale_preserved env sched2 _ i (by simp [fupd]) hd

/-- Witness for `c1_stale_token_discard`: handler 0 mints, handler 1 mints,
handler 0 persists, decides, generates and then checks — finding token 1
live — so it is discarded. -/
theorem c1_stale_token_discard_witness :
    (orchRun envAll ([0, 1, 0, 0, 0] ++ 0 :: [])).phase 0 = .staleDiscarded
    ∧ (orchRun envAll ([0, 1, 0, 0, 0] ++ 0 :: [])).dispatched 0 = false :=
  c1_stale_token_discard envAll [0, 1, 0, 0, 0] [] 0 (by decide) (by decide)

/-- C1 as frozen is false: with mint order 0 then 1 (strictly increasing),
both responses are dispatched — not at most the last-minted one.  The
schedule is a real event-loop interleaving: handler 0 passes its line-227
check and suspends on the line-249 `composeState` await; handler 1 then
runs from mint through its own check (the table holds token 1, so it
passes too); both then resume, delete the entry and call `processActions`. -/
theorem c1_counterexample :
    (orchRun envAll [0]).table = some 0
    ∧ (orchRun envAll [0, 0, 0, 0, 0, 1]).table = some 1
    ∧ (orchRun envAll [0, 0, 0, 0, 0, 1, 1, 1, 1, 1, 0, 0, 1, 1]).dispatched 0 = true
    ∧ (orchRun envAll [0, 0, 0, 0, 0, 1, 1, 1, 1, 1, 0, 0, 1, 1]).dispatched 1 = true
    ∧ (orchRun envAll [0, 0, 0, 0, 0, 1, 1, 1, 1, 1, 0, 0, 1, 1]).phase 0 = .finished
    ∧ (orchRun envAll [0, 0, 0, 0, 0, 1, 1, 1, 1, 1, 0, 0, 1, 1]).phase 1 = .finished := by
  decide

/-! ## Claim C2 -/

/-- C2, amended.  `runtime.evaluate` (the Reflection Consolidator post-step)
runs exactly once for a handler precisely when the handler runs to normal
completion — both when should-respond is false and when the response is
dispatched — and zero times otherwise; in particular it does not run when
the response is discarded as stale (the line-232 early return precedes the
line-260 `runtime.evaluate` call), refuting the frozen claim's "including
when the generated response is discarded as stale". -/
theorem c2_evaluate_iff_finished :
    ∀ (env : Nat → HandlerEnv) (sched : List Nat) (i : Nat),
      (orchRun env sched).evalCount i
        = if (orchRun env sched).phase i = .finished then 1 else 0 :=
  fun env sched i => EvalInv_run env sched i

/-- C2 as frozen is false: a handler whose message is fully processed up to
the stale check (it even ran `checkShouldRespond`) returns early and
`runtime.evaluate` never runs for it. -/
theorem c2_counterexample :
    (orchRun envAll [0, 1, 0, 0, 0, 0]).decided 0 = true
    ∧ (orchRun envAll [0, 1, 0, 0, 0, 0]).phase 0 = .staleDiscarded
    ∧ (orchRun envAll [0, 1, 0, 0, 0, 0]).evalCount 0 = 0 := by
  decide

/-! ## Claim C3 -/

/-- C3, amended.  A handler that passed the stale check deletes the live
token entry unconditionally (lines 252–255) when it resumes — there is no
compare-and-clear — so the entry is cleared even when it no longer holds
this handler's token, and the clearing happens before `processActions`,
not after. -/
theorem c3_unconditional_clear (env : Nat → HandlerEnv) (s : OrchState) (i : Nat)
    (h : s.phase i = .dispatching) :
    (orchStep env s i).table = none ∧ (orchStep env s i).dispatched i = true := by
  rw [orchStep_eq_dispatching h]
  simp [fupd]

/-- Witness for `c3_unconditional_clear`, at a state where the table holds
the newer token 1 while handler 0 resumes from its passed check. -/
theorem c3_unconditional_clear_witness :
    (orchStep envAll (orchRun envAll [0, 0, 0, 0, 0, 1]) 0).table = none
    ∧ (orchStep envAll (orchRun envAll [0, 0, 0, 0, 0, 1]) 0).dispatched 0 = true :=
  c3_unconditional_clear envAll (orchRun envAll [0, 0, 0, 0, 0, 1]) 0 (by decide)

/-- C3 as frozen is false: handler 0 passes its check, handler 1 then mints
(table = token 1), and handler 0's completion deletes the entry — wiping
the newer token 1 although the entry no longer equals token 0. -/
theorem c3_counterexample :
    (orchRun envAll [0, 0, 0, 0, 0, 1]).table = some 1
    ∧ (orchRun envAll [0, 0, 0, 0, 0, 1, 0]).table = none
    ∧ (orchRun envAll [0, 0, 0, 0, 0, 1, 0]).dispatched 0 = true
    ∧ (orchRun envAll [0, 0, 0, 0, 0, 1, 0]).phase 1 = .persisting := by
  decide

/-! ## Claim C6 -/

/-- C6, amended.  A persistence failure is surfaced to the caller — the
handler's promise rejects (phase `failed`) — but it aborts the handler:
`checkShouldRespond` never runs, nothing is dispatched and
`runtime.evaluate` never runs, refuting the frozen claim's "does not
prevent the should-respond evaluation and response-generation path". -/
theorem c6_persist_failure_aborts (env : Nat → HandlerEnv) (sched : List Nat)
    (i : Nat) (h : (orchRun env sched).phase i = .failed) :
    (orchRun env sched).decided i = false
    ∧ (orchRun env sched).dispatched i = false
    ∧ (orchRun env sched).evalCount i = 0 :=
  FailInv_run env sched i (Or.inr (Or.inr h))

/-- Witness for `c6_persist_failure_aborts`. -/
theorem c6_persist_failure_aborts_witness :
    (orchRun envFailing [0, 0]).decided 0 = false
    ∧ (orchRun envFailing [0, 0]).dispatched 0 = false
    ∧ (orchRun envFailing [0, 0]).evalCount 0 = 0 :=
  c6_persist_failure_aborts envFailing [0, 0] 0 (by decide)

/-- C6 as frozen is false: when the line-204 `await Promise.all` rejects,
the rejection propagates out of the handler and `checkShouldRespond` never
runs, no matter how long the schedule continues. -/
theorem c6_counterexample :
    (orchRun envFailing [0, 0, 0, 0, 0, 0]).phase 0 = .failed
    ∧ (orchRun envFailing [0, 0, 0, 0, 0, 0]).decided 0 = false
    ∧ (orchRun envFailing [0, 0, 0, 0, 0, 0]).dispatched 0 = false
    ∧ (orchRun envFailing [0, 0, 0, 0, 0, 0]).evalCount 0 = 0 := by
  decide

/-! ## Claim C7 -/

/-- C7, confirmed.  The should-respond early-outs fire in the fixed source
order, each short-circuiting: agent-authored → false; muted with no
case-insensitive name mention → false; followed → true; name mention →
true (in particular a muted conversation whose message mentions the agent
name yields true — the concrete "hey SarahBot are you there" scenario is
the last conjunct); otherwise the model output decides, "RESPOND" first
(→ true), then "IGNORE" (→ false), then "STOP" (→ false), anything else →
false. -/
theorem c7_should_respond_order :
    (∀ c : ShouldRespondCtx, c.userId = c.agentId → checkShouldRespond c = false)
    ∧ (∀ c : ShouldRespondCtx, c.userId ≠ c.agentId →
        c.agentUserState = some "MUTED" →
        strIncludes (strToLower c.text) (strToLower c.agentName) = false →
        checkShouldRespond c = false)
    ∧ (∀ c : ShouldRespondCtx, c.userId ≠ c.agentId →
        c.agentUserState = some "FOLLOWED" →
        checkShouldRespond c = true)
    ∧ (∀ c : ShouldRespondCtx, c.userId ≠ c.agentId →
        c.agentUserState ≠ some "FOLLOWED" →
        strIncludes (strToLower c.text) (strToLower c.agentName) = true →
        checkShouldRespond c = true)
    ∧ (∀ c : ShouldRespondCtx, c.userId ≠ c.agentId →
        c.agentUserState ≠ some "MUTED" →
        c.agentUserState ≠ some "FOLLOWED" →
        strIncludes (strToLower c.text) (strToLower c.agentName) = false →
        ((strIncludes c.modelText "RESPOND" = true → checkShouldRespond c = true)
          ∧ (strIncludes c.modelText "RESPOND" = false →
              strIncludes c.modelText "IGNORE" = true → checkShouldRespond c = false)
          ∧ (strIncludes c.modelText "RESPOND" = false →
              strIncludes c.modelText "STOP" = true → checkShouldRespond c = false)
          ∧ (strIncludes c.modelText "RESPOND" = false →
              strIncludes c.modelText "IGNORE" = false →
              strIncludes c.modelText "STOP" = false → checkShouldRespond c = false)))
    ∧ checkShouldRespond
        ⟨"user-1", "agent-1", some "MUTED", "hey SarahBot are you there",
          "SarahBot", ""⟩ = true := by
  refine ⟨?_, ?_, ?_, ?_, ?_, by decide⟩
  · intro c h
    simp [checkShouldRespond, h]
  · intro c h1 h2 h3
    simp [checkShouldRespond, h1, h2, h3]
  · intro c h1 h2
    simp [checkShouldRespond, h1, h2]
  · intro c h1 h2 h3
    simp [checkShouldRespond, h1, h2, h3]
  · intro c h1 h2 h3 h4
    refine ⟨fun h5 => ?_, fun h5 h6 => ?_, fun h5 h6 => ?_, fun h5 h6 h7 => ?_⟩
    · simp [checkShouldRespond, h1, h2, h3, h4, h5]
    · simp [checkShouldRespond, h1, h2, h3, h4, h5, h6]
    · cases h8 : strIncludes c.modelText "IGNORE" <;>
        simp [checkShouldRespond, h1, h2, h3, h4, h5, h6, h8]
    · simp [checkShouldRespond, h1, h2, h3, h4, h5, h6, h7]

/-- Witness for `c7_should_respond_order`: an agent-authored message is
never responded to. -/
theorem c7_should_respond_order_witness :
    checkShouldRespond ⟨"agent-1", "agent-1", none, "hi", "SarahBot", ""⟩ = false :=
  c7_should_respond_order.1 ⟨"agent-1", "agent-1", none, "hi", "SarahBot", ""⟩ rfl

/-! ## Claim C8 -/

/-- C8, confirmed.  `validate` returns true exactly when the message count
remaining after dropping the prefix through the checkpoint strictly
exceeds `ceil(conversationLength / 4)`; at exact equality it returns
false.  The first conjunct certifies that `ceilDiv4` is the ceiling of
division by four (the least `k` with `L ≤ 4k`). -/
theorem c8_validate_threshold :
    (∀ L k : Nat, L ≤ 4 * k ↔ ceilDiv4 L ≤ k)
    ∧ (∀ (L : Nat) (msgs : List String),
        reflectionValidate L none msgs = true ↔ msgs.length > ceilDiv4 L)
    ∧ (∀ (L : Nat) (mid : String) (msgs : List String) (i : Nat), mid ≠ "" →
        msgs.findIdx? (fun m => m == mid) = some i →
        (reflectionValidate L (some mid) msgs = true ↔
          msgs.length - (i + 1) > ceilDiv4 L))
    ∧ (∀ (L : Nat) (mid : String) (msgs : List String), mid ≠ "" →
        msgs.findIdx? (fun m => m == mid) = none →
        (reflectionValidate L (some mid) msgs = true ↔ msgs.length > ceilDiv4 L))
    ∧ (∀ (L : Nat) (mid : String) (msgs : List String) (i : Nat), mid ≠ "" →
        msgs.findIdx? (fun m => m == mid) = some i →
        msgs.length - (i + 1) = ceilDiv4 L →
        reflectionValidate L (some mid) msgs = false) := by
  refine ⟨?_, ?_, ?_, ?_, ?_⟩
  · intro L k
    unfold ceilDiv4
    omega
  · intro L msgs
    simp [reflectionValidate]
  · intro L mid msgs i h1 h2
    simp [reflectionValidate, h1, h2]
  · intro L mid msgs h1 h2
    simp [reflectionValidate, h1, h2]
  · intro L mid msgs i h1 h2 h3
    simp [reflectionValidate, h1, h2, h3]

/-- Witness for `c8_validate_threshold`: conversation window 8 gives
interval 2; two messages remain after the checkpoint, which does not
strictly exceed 2, so validate is false. -/
theorem c8_validate_threshold_witness :
    reflectionValidate 8 (some "m2") ["m4", "m3", "m2", "m1", "m0"] = false :=
  c8_validate_threshold.2.2.2.2 8 "m2" ["m4", "m3", "m2", "m1", "m0"] 2
    (by decide) (by decide) (by decide)

/-! ## Claim C9 -/

/-- C9, confirmed.  `resolveEntity` applies its four rules in order with
first match winning: (a) a syntactic UUID resolves to itself with no
roster lookup, (b) exact roster id match, (c) the identifier as a
substring of a roster id, (d) the identifier as a case-insensitive
substring of a known name; it fails exactly when no rule matches, and a
failed resolution of either endpoint makes the merge loop skip that one
relationship, leaving the store untouched. -/
theorem c9_resolver_rules :
    (∀ (s : String) (entities : List Entity), isUUIDFormat s = true →
      resolveEntity s entities = some s)
    ∧ (∀ (s : String) (entities : List Entity) (e : Entity), isUUIDFormat s = false →
        entities.find? (fun a => a.id == s) = some e →
        resolveEntity s entities = some e.id)
    ∧ (∀ (s : String) (entities : List Entity) (e : Entity), isUUIDFormat s = false →
        entities.find? (fun a => a.id == s) = none →
        entities.find? (fun a => strIncludes a.id s) = some e →
        resolveEntity s entities = some e.id)
    ∧ (∀ (s : String) (entities : List Entity) (e : Entity), isUUIDFormat s = false →
        entities.find? (fun a => a.id == s) = none →
        entities.find? (fun a => strIncludes a.id s) = none →
        entities.find? (fun a => a.names.any fun n =>
          strIncludes (strToLower n) (strToLower s)) = some e →
        resolveEntity s entities = some e.id)
    ∧ (∀ (s : String) (entities : List Entity),
        resolveEntity s entities = none ↔
          (isUUIDFormat s = false
           ∧ entities.find? (fun a => a.id == s) = none
           ∧ entities.find? (fun a => strIncludes a.id s) = none
           ∧ entities.find? (fun a => a.names.any fun n =>
               strIncludes (strToLower n) (strToLower s)) = none))
    ∧ (∀ (entities : List Entity) (snapshot : List StoredRel)
        (acc : List StoredRel × Nat) (rel : ExtractedRel),
        resolveEntity rel.sourceEntityId entities = none →
        mergeRel entities snapshot acc rel = acc)
    ∧ (∀ (entities : List Entity) (snapshot : List StoredRel)
        (acc : List StoredRel × Nat) (rel : ExtractedRel) (src : String),
        resolveEntity rel.sourceEntityId entities = some src →
        resolveEntity rel.targetEntityId entities = none →
        mergeRel entities snapshot acc rel = acc) := by
  refine ⟨?_, ?_, ?_, ?_, ?_, ?_, ?_⟩
  · intro s entities h
    simp [resolveEntity, h]
  · intro s entities e h1 h2
    simp [resolveEntity, h1, h2]
  · intro s entities e h1 h2 h3
    simp [resolveEntity, h1, h2, h3]
  · intro s entities e h1 h2 h3 h4
    simp [resolveEntity, h1, h2, h3, h4]
  · intro s entities
    unfold resolveEntity
    cases hu : isUUIDFormat s
    · cases h1 : entities.find? (fun a => a.id == s)
      · cases h2 : entities.find? (fun a => strIncludes a.id s)
        · cases h3 : entities.find? (fun a => a.names.any fun n =>
              strIncludes (strToLower n) (strToLower s)) <;> simp [h3]
        · simp
      · simp
    · simp [hu]
  · intro entities snapshot acc rel h
    simp [mergeRel, h]
  · intro entities snapshot acc rel src h1 h2
    simp [mergeRel, h1, h2]

/-- Witness for `c9_resolver_rules`: a syntactically valid UUID resolves
to itself even against an empty roster. -/
theorem c9_resolver_rules_witness :
    resolveEntity "12345678-9abc-def0-1234-56789abcdef0" [] =
      some "12345678-9abc-def0-1234-56789abcdef0" :=
  c9_resolver_rules.1 "12345678-9abc-def0-1234-56789abcdef0" [] (by decide)

/-! ## Claims C4 and C5: concrete resolvable ids -/

/-- A syntactically valid UUID used as entity `A` in merge scenarios. -/
def uuidA : String := "aaaaaaaa-aaaa-aaaa-aaaa-aaaaaaaaaaaa"

/-- A syntactically valid UUID used as entity `B` in merge scenarios. -/
def uuidB : String := "bbbbbbbb-bbbb-bbbb-bbbb-bbbbbbbbbbbb"

/-- C4, amended.  Two sequential passes observing `A→B` with tags `xs`
then `ys` and no extracted metadata yield the single edge with the tag
union and `interactions = 2`; and an observation against an existing edge
whose counter is missing defaults it to 0 and writes 1, updating in
place.  (The frozen claim's "a new edge is created with … interactions
= 1" holds only when the extracted relationship carries no metadata —
`c4_counterexample` shows extracted metadata overrides the default.) -/
theorem c4_merge_scenario :
    ∀ (entities : List Entity) (A B : String) (xs ys : List String),
      isUUIDFormat A = true → isUUIDFormat B = true →
      (reflectPass entities (reflectPass entities ([], 0) [⟨A, B, xs, none⟩])
          [⟨A, B, ys, none⟩]
        = ([⟨0, A, B, setUnion xs ys, some 2⟩], 1))
      ∧ (∀ (rid n : Nat),
          reflectPass entities ([⟨rid, A, B, xs, none⟩], n) [⟨A, B, ys, none⟩]
            = ([⟨rid, A, B, setUnion xs ys, some 1⟩], n)) := by
  intro entities A B xs ys hA hB
  have hA' : resolveEntity A entities = some A := by simp [resolveEntity, hA]
  have hB' : resolveEntity B entities = some B := by simp [resolveEntity, hB]
  constructor
  · simp [reflectPass, mergePass, mergeRel, hA', hB', updateRow]
  · intro rid n
    simp [reflectPass, mergePass, mergeRel, hA', hB', updateRow]

/-- Witness for `c4_merge_scenario`, at the spec's own scenario
`{A→B, tags:[x]}` then `{A→B, tags:[y]}`. -/
theorem c4_merge_scenario_witness :
    reflectPass [] (reflectPass [] ([], 0) [⟨uuidA, uuidB, ["x"], none⟩])
        [⟨uuidA, uuidB, ["y"], none⟩]
      = ([⟨0, uuidA, uuidB, setUnion ["x"] ["y"], some 2⟩], 1) :=
  (c4_merge_scenario [] uuidA uuidB ["x"] ["y"] (by decide) (by decide)).1

/-- C4 as frozen is false in its create clause: an extracted relationship
carrying `metadata.interactions = 7` is spread after the default
(`{ interactions: 1, ...relationship.metadata }`), so the freshly created
edge starts at 7, not 1. -/
theorem c4_counterexample :
    reflectPass [] ([], 0) [⟨uuidA, uuidB, ["x"], some 7⟩]
      = ([⟨0, uuidA, uuidB, ["x"], some 7⟩], 1) := by
  decide

/-- C5, amended.  An observation whose resolved ordered pair has an edge in
the pass-start snapshot takes the update path: the store keeps its length
(no second edge is created) and no fresh row id is consumed.  The frozen
claim's stronger invariant — at most one edge per pair even for two
same-pair extractions within a single pass — fails because the lookup
consults the stale snapshot (`c5_counterexample`). -/
theorem c5_update_not_create :
    ∀ (entities : List Entity) (snapshot store : List StoredRel) (n : Nat)
      (rel : ExtractedRel) (src tgt : String) (e : StoredRel),
      resolveEntity rel.sourceEntityId entities = some src →
      resolveEntity rel.targetEntityId entities = some tgt →
      snapshot.find? (fun r =>
        r.sourceEntityId == src && r.targetEntityId == tgt) = some e →
      (mergeRel entities snapshot (store, n) rel).1.length = store.length
      ∧ (mergeRel entities snapshot (store, n) rel).2 = n := by
  intro entities snapshot store n rel src tgt e h1 h2 h3
  simp [mergeRel, h1, h2, h3, updateRow]

/-- Witness for `c5_update_not_create`. -/
theorem c5_update_not_create_witness :
    (mergeRel [] [⟨0, uuidA, uuidB, ["x"], some 1⟩]
        ([⟨0, uuidA, uuidB, ["x"], some 1⟩], 1) ⟨uuidA, uuidB, ["y"], none⟩).1.length
      = [(⟨0, uuidA, uuidB, ["x"], some 1⟩ : StoredRel)].length
    ∧ (mergeRel [] [⟨0, uuidA, uuidB, ["x"], some 1⟩]
        ([⟨0, uuidA, uuidB, ["x"], some 1⟩], 1) ⟨uuidA, uuidB, ["y"], none⟩).2 = 1 :=
  c5_update_not_create [] [⟨0, uuidA, uuidB, ["x"], some 1⟩]
    [⟨0, uuidA, uuidB, ["x"], some 1⟩] 1 ⟨uuidA, uuidB, ["y"], none⟩
    uuidA uuidB ⟨0, uuidA, uuidB, ["x"], some 1⟩
    (by decide) (by decide) (by decide)

/-- C5 as frozen is false: within one pass, two extracted relationships for
the same fresh pair both miss in the pass-start snapshot and both create,
leaving two stored edges for the ordered pair `(A, B)`. -/
theorem c5_counterexample :
    reflectPass [] ([], 0)
        [⟨uuidA, uuidB, ["x"], none⟩, ⟨uuidA, uuidB, ["y"], none⟩]
      = ([⟨0, uuidA, uuidB, ["x"], some 1⟩, ⟨1, uuidA, uuidB, ["y"], some 1⟩], 2) := by
  decide

/-! ## Claim C10 -/

/-- C10, amended.  In object/array mode the extraction returns `null` and
never throws whenever the (possibly unsliced) text fails to parse, the
text is empty, or the supplied schema rejects the parsed value; the
function is total, so no model output makes it raise.  (The frozen
claim's "no matching bracket pair → null" is refuted by
`c10_counterexample`: without brackets the whole output is parsed as-is,
and a bare JSON scalar parses successfully.) -/
theorem c10_extraction_null_paths :
    (∀ (output : String) (schema : Option (Json → Option Json)),
      generateObject output schema "" = none)
    ∧ (∀ (output : String) (schema : Option (Json → Option Json)) (response : String),
        jsonParse (sliceToBrackets output response) = none →
        generateObject output schema response = none)
    ∧ (∀ (output response : String) (validate : Json → Option Json) (j : Json),
        jsonParse (sliceToBrackets output response) = some j →
        validate j = none →
        generateObject output (some validate) response = none) := by
  refine ⟨?_, ?_, ?_⟩
  · intro output schema
    cases h0 : (sliceToBrackets output "").length == 0 <;>
      simp [generateObject, h0, sliceToBrackets, jsIndexOf, jsLastIndexOf]
  · intro output schema response h
    cases h0 : (sliceToBrackets output response).length == 0 <;>
      simp [generateObject, h0, h]
  · intro output response validate j h hv
    cases h0 : (sliceToBrackets output response).length == 0 <;>
      simp [generateObject, h0, h, hv]

/-- Witness for `c10_extraction_null_paths`: prose with no brackets fails
to parse as JSON and yields `null`. -/
theorem c10_extraction_null_paths_witness :
    generateObject "object" none "hello" = none :=
  c10_extraction_null_paths.2.1 "object" none "hello" rfl

/-- C10 as frozen is false: the output `"42"` contains no bracket of
either kind, yet the extraction returns the parsed number 42 rather than
`null` — when no bracket pair is found the whole output is handed to
`JSON.parse`, and a bare scalar parses. -/
theorem c10_counterexample :
    jsIndexOf "42".toList '{' = none
    ∧ jsLastIndexOf "42".toList '}' = none
    ∧ generateObject "object" none "42" = some (Json.num "42") :=
  ⟨rfl, rfl, rfl⟩

end Luna
